import Mathlib

/-!
# A verification model of the `cross_platform_trader` OKX/Discord facade

This file gives a shallow embedding, in Lean, of the decision logic of the
`cross_platform_trader` repository and proves the behavioural properties its
specification states about that logic.  The embedded parts are:

* the vendor-response classification of `OKXTradingService.place_order` and
  `OKXAlgoService._handle_algo_response` (sCode/sMsg handling);
* the FastAPI handlers of `app/routers/okx/trading.py`, including the
  `try`/`except Exception` control flow that decides which HTTP status a
  client actually sees;
* the tenacity retry decorator configuration
  (`stop_after_attempt(3)`, `wait_exponential`) carried by the
  order-placement and position-close methods;
* the `OKXBaseService` singleton (`__new__`/`__init__`) and the service
  wiring of `app/main.py`;
* the Discord harvester: `DiscordScheduler.start_scheduler`,
  `DiscordMessageService.fetch_discord_messages`,
  `_group_messages_by_time`, `_create_message_group`, `save_to_database`.

Machine-level conventions: Python `None` becomes `Option.none`; a Python
dict key that may be absent becomes an `Option` field, `d.get(k, v)` becomes
`Option.getD`, and `d[k]` on a possibly-absent key is modelled explicitly as
the `KeyError` branch; datetimes are carried as rational numbers of seconds
(the value produced by `datetime.fromisoformat`); coroutines that only ever
return (never raise) are modelled as total functions, and fallible ones with
`Except`.
-/

namespace CrossPlatformTrader

/-! ## Vendor response payloads (OKX wire shapes)

`trade_api.set_order` and the algo endpoints answer with a JSON object
holding an optional top-level `msg` and a `data` list.  `VendorResult` is
generic in the element type of `data` so that the trade and algo shapes
share the sent-failure test and the error-message fallback. -/

/-- One element of the vendor `data` list for `set_order`: the per-order
result code and message, plus identifier fields that the service reads
with `.get(..., default)` (hence `Option`). -/
structure OrderData where
  sCode : String
  sMsg : String
  ordId : Option String := none
  clOrdId : Option String := none
  tag : Option String := none
  deriving DecidableEq, Repr

/-- One element of the vendor `data` list for the algo endpoints. -/
structure AlgoOrderData where
  sCode : String
  sMsg : String
  algoId : Option String := none
  algoClOrdId : Option String := none
  deriving DecidableEq, Repr

/-- A vendor response object: optional `msg`, optional `data` list.
`data = none` models the `data` key being absent, `data = some []` an
empty list; the Python test `not result or "data" not in result or not
result["data"]` treats all of these as a failure to send. -/
structure VendorResult (δ : Type) where
  msg : Option String := none
  data : Option (List δ) := none
  deriving DecidableEq, Repr

/-- `result.get("msg", "Unknown error") if result else "No response"`. -/
def vendorErrorMsg {δ : Type} : Option (VendorResult δ) → String
  | none => "No response"
  | some r => r.msg.getD "Unknown error"

/-- The first element of the `data` list, when the response reached the
venue (`result["data"][0]`); `none` exactly when the request failed to
send. -/
def firstData {δ : Type} : Option (VendorResult δ) → Option δ
  | some { msg := _, data := some (d :: _) } => some d
  | _ => none

/-! ## Typed service responses (`app/models/okx/trade.py`, `algo_trade.py`) -/

/-- `OKXTradeResponse`: the typed result of the spot-trading service
methods. -/
structure OKXTradeResponse where
  ord_id : String
  cl_ord_id : Option String := none
  tag : Option String := none
  s_code : String
  s_msg : String
  deriving DecidableEq, Repr

/-- The `success` property of `OKXTradeResponse`. -/
def OKXTradeResponse.success (r : OKXTradeResponse) : Bool :=
  r.s_code == "0"

/-- `OKXAlgoOrderResponse`: the typed result of the algo-trading service
methods. -/
structure OKXAlgoOrderResponse where
  algo_id : String
  algo_cl_ord_id : Option String := none
  s_code : String
  s_msg : String
  deriving DecidableEq, Repr

/-- The `success` property of `OKXAlgoOrderResponse`. -/
def OKXAlgoOrderResponse.success (r : OKXAlgoOrderResponse) : Bool :=
  r.s_code == "0"

/-- The message `str(e)` carries for a `KeyError` on key `k` (rendering
abstracted; no theorem depends on the exact text). -/
def keyErrorMsg (k : String) : String :=
  "KeyError: " ++ k

/-! ## Response classification in `OKXTradingService.place_order`

The branch of `place_order` that follows `trade_api.set_order`.  The
surrounding `except Exception` clause of the method converts the one
exception this branch can raise (a `KeyError` from `order_data["ordId"]`
when `sCode = "0"` but the key is absent) into the generic failure
response built from `str(e)`; that conversion is inlined in the last
match arm. -/
def place_order_classify (result : Option (VendorResult OrderData)) :
    OKXTradeResponse :=
  match result with
  | none =>
      { ord_id := "", s_code := "1",
        s_msg := "Order failed: " ++ vendorErrorMsg (δ := OrderData) none }
  | some r =>
      match r.data with
      | none =>
          { ord_id := "", s_code := "1",
            s_msg := "Order failed: " ++ vendorErrorMsg (some r) }
      | some [] =>
          { ord_id := "", s_code := "1",
            s_msg := "Order failed: " ++ vendorErrorMsg (some r) }
      | some (order_data :: _) =>
          if order_data.sCode ≠ "0" then
            { ord_id := order_data.ordId.getD "",
              cl_ord_id := order_data.clOrdId,
              tag := order_data.tag,
              s_code := order_data.sCode,
              s_msg := order_data.sMsg }
          else
            match order_data.ordId with
            | some oid =>
                { ord_id := oid,
                  cl_ord_id := order_data.clOrdId,
                  tag := order_data.tag,
                  s_code := order_data.sCode,
                  s_msg := order_data.sMsg }
            | none =>
                { ord_id := "", s_code := "1", s_msg := keyErrorMsg "ordId" }

/-- `OKXAlgoService._handle_algo_response`.  This helper has no
`try`/`except` of its own, so the `KeyError` possible on
`order_data["algoId"]` propagates to the caller: the result is an
`Except`. -/
def handle_algo_response (result : Option (VendorResult AlgoOrderData)) :
    Except String OKXAlgoOrderResponse :=
  match result with
  | none =>
      .ok { algo_id := "", s_code := "1",
            s_msg := "Algo order failed: " ++ vendorErrorMsg (δ := AlgoOrderData) none }
  | some r =>
      match r.data with
      | none =>
          .ok { algo_id := "", s_code := "1",
                s_msg := "Algo order failed: " ++ vendorErrorMsg (some r) }
      | some [] =>
          .ok { algo_id := "", s_code := "1",
                s_msg := "Algo order failed: " ++ vendorErrorMsg (some r) }
      | some (order_data :: _) =>
          if order_data.sCode ≠ "0" then
            .ok { algo_id := order_data.algoId.getD "",
                  algo_cl_ord_id := order_data.algoClOrdId,
                  s_code := order_data.sCode,
                  s_msg := order_data.sMsg }
          else
            match order_data.algoId with
            | some aid =>
                .ok { algo_id := aid,
                      algo_cl_ord_id := order_data.algoClOrdId,
                      s_code := order_data.sCode,
                      s_msg := order_data.sMsg }
            | none => .error (keyErrorMsg "algoId")

/-! ## FastAPI handler control flow (`app/routers/okx/trading.py`)

Every handler in this router wraps its body in
`try: ... except Exception as e: raise HTTPException(status_code=500,
detail=str(e))`.  Starlette `HTTPException` derives from `Exception`, so
an `HTTPException` raised *inside* such a `try` block is caught by the
`except` clause and replaced by the 500. -/

/-- An exception propagating inside a handler: either a (fastapi)
`HTTPException`, or any other exception carrying its `str`. -/
inductive PyExc where
  | httpException (status : Nat) (detail : String)
  | other (message : String)
  deriving DecidableEq, Repr

/-- `str(e)`: Starlette renders an `HTTPException` as
`"{status_code}: {detail}"`. -/
def PyExc.str : PyExc → String
  | .httpException status detail => toString status ++ ": " ++ detail
  | .other message => message

/-- Outcome of executing a block of handler code: a normal return or a
raised exception. -/
inductive PyOutcome (α : Type) where
  | ret (value : α)
  | raised (e : PyExc)
  deriving DecidableEq, Repr

/-- `try: <body> except Exception as e: raise HTTPException(status_code=500,
detail=str(e))` — the catch-all wrapper shared by all handlers of the
router. -/
def catchAllRaise500 {α : Type} (body : PyOutcome α) : PyOutcome α :=
  match body with
  | .ret v => .ret v
  | .raised e => .raised (.httpException 500 e.str)

/-- The HTTP response FastAPI sends for a handler outcome: a 2xx body,
or the error status and detail of an uncaught `HTTPException` (any other
uncaught exception becomes a plain 500). -/
inductive EndpointResult (α : Type) where
  | ok (body : α)
  | error (status : Nat) (detail : String)
  deriving DecidableEq, Repr

/-- Translate a handler outcome into the HTTP response. -/
def runHandler {α : Type} : PyOutcome α → EndpointResult α
  | .ret v => .ok v
  | .raised (.httpException status detail) => .error status detail
  | .raised (.other _) => .error 500 "Internal Server Error"

/-- Body of the `try` block of the `/trading/place-order` handler, given
the service result: `if not result.success: raise HTTPException(
status_code=400, detail=result.s_msg); return result`. -/
def place_order_endpoint_try (result : OKXTradeResponse) :
    PyOutcome OKXTradeResponse :=
  if !result.success then .raised (.httpException 400 result.s_msg)
  else .ret result

/-- The `/trading/place-order` handler: the `try` body under the
catch-all `except Exception` clause. -/
def place_order_endpoint (result : OKXTradeResponse) :
    PyOutcome OKXTradeResponse :=
  catchAllRaise500 (place_order_endpoint_try result)

/-- Python truthiness of an optional string parameter: `None` and `""`
are falsy. -/
def optTruthy : Option String → Bool
  | none => false
  | some s => !s.isEmpty

/-- The `/trading/order/{inst_id}` handler (`get_order_details`).  The
`if not ord_id and not cl_ord_id` guard sits *before* the `try` block;
the 404 raise sits *inside* it.  `order` is the service result
(`Optional[OKXOrder]`); the handler body only tests it for `None`, so the
order payload stays a type parameter. -/
def get_order_details_endpoint {α : Type} (ord_id cl_ord_id : Option String)
    (order : Option α) : PyOutcome (String × α) :=
  if !optTruthy ord_id && !optTruthy cl_ord_id then
    .raised (.httpException 400 "Either ord_id or cl_ord_id must be provided")
  else
    catchAllRaise500 (
      match order with
      | none => .raised (.httpException 404 "Order not found")
      | some o => .ret ("success", o))

/-! ## The tenacity retry decorator

`place_order` and `close_position` (and the five algo placement methods)
are decorated with

`@retry(stop=stop_after_attempt(3),
        wait=wait_exponential(multiplier=RETRY_MULTIPLIER,
                              min=RETRY_MIN_WAIT, max=RETRY_MAX_WAIT),
        retry_error_callback=lambda rs: handle_retry_error(rs, ...))`

tenacity semantics: the wrapped coroutine is re-executed while it keeps
raising, sleeping `wait(n)` after the n-th failed attempt, until
`stop_after_attempt` ends the loop; then the `retry_error_callback`
result is returned in place of the exception.  The constants module
`app/shared/utils/constants.py` is not part of the sources, so the three
wait parameters remain parameters of the model. -/

/-- tenacity `wait_exponential`: `multiplier * exp_base ** (attempt - 1)`
with `exp_base = 2`, clamped into `[max 0 min, max]`. -/
def wait_exponential (multiplier lo hi : ℚ) (attempt : ℕ) : ℚ :=
  max (max 0 lo) (min (multiplier * 2 ^ (attempt - 1)) hi)

/-- Trace of one decorated call: the value returned to the caller, the
number of attempts actually executed, and the sleeps performed between
attempts. -/
structure RetryTrace (α : Type) where
  result : α
  attempts : ℕ
  waits : List ℚ
  deriving DecidableEq, Repr

/-- The tenacity retry loop: `call n` is the n-th execution of the
wrapped coroutine, `fuel` the number of attempts `stop_after_attempt`
still allows, `fallback` the value of the `retry_error_callback`. -/
def runRetry {ε α : Type} (call : ℕ → Except ε α) (wait : ℕ → ℚ)
    (fallback : α) : ℕ → ℕ → RetryTrace α
  | _, 0 => { result := fallback, attempts := 0, waits := [] }
  | attempt, 1 =>
      match call attempt with
      | .ok a => { result := a, attempts := 1, waits := [] }
      | .error _ => { result := fallback, attempts := 1, waits := [] }
  | attempt, fuel + 2 =>
      match call attempt with
      | .ok a => { result := a, attempts := 1, waits := [] }
      | .error _ =>
          let rest := runRetry call wait fallback (attempt + 1) (fuel + 1)
          { result := rest.result,
            attempts := rest.attempts + 1,
            waits := wait attempt :: rest.waits }

/-- Modelled from the spec: `handle_retry_error`
(`app/shared/utils/retry_helper.py` is not among the sources; only the
importing modules and the decorator call sites are).  Per the spec the retry policy
amounts to "retry ... 3 times with capped exponential backoff, then give
up and return a typed failure", so the callback yields a failed
`OKXTradeResponse` instead of re-raising. -/
def handle_retry_error : OKXTradeResponse :=
  { ord_id := "", s_code := "1", s_msg := "Max retries exceeded" }

/-- `place_order` under its decorator: `stop_after_attempt(3)` with the
exponential wait and the error callback. -/
def place_order_with_retry (m lo hi : ℚ)
    (call : ℕ → Except String OKXTradeResponse) : RetryTrace OKXTradeResponse :=
  runRetry call (wait_exponential m lo hi) handle_retry_error 1 3

/-! ## Which operations carry the decorator

Transcribed from the decorators present in
`app/trading_app/services/okx/okx_trading_service.py` and
`app/services/okx/okx_algo_service.py`. -/

/-- The trading operations of the two OKX services. -/
inductive TradingOp where
  | placeOrder
  | cancelOrder
  | modifyOrder
  | getOrders
  | getOrderDetails
  | closePosition
  | placeTpSlOrder
  | placeTriggerOrder
  | placeTrailingStopOrder
  | placeIcebergOrder
  | placeTwapOrder
  | cancelAlgoOrder
  | amendAlgoOrder
  | getAlgoOrders
  | getAlgoOrderDetails
  deriving DecidableEq, Repr, Fintype

/-- Whether the method is defined under
`@retry(stop=stop_after_attempt(3), ...)` in the source. -/
def hasRetryDecorator : TradingOp → Bool
  | .placeOrder => true
  | .closePosition => true
  | .placeTpSlOrder => true
  | .placeTriggerOrder => true
  | .placeTrailingStopOrder => true
  | .placeIcebergOrder => true
  | .placeTwapOrder => true
  | _ => false

/-- The operations that place an order (spot or algo). -/
def isOrderPlacement : TradingOp → Bool
  | .placeOrder => true
  | .placeTpSlOrder => true
  | .placeTriggerOrder => true
  | .placeTrailingStopOrder => true
  | .placeIcebergOrder => true
  | .placeTwapOrder => true
  | _ => false

/-- Attempts allowed for one client call: `stop_after_attempt(3)` for a
decorated method, a single execution otherwise. -/
def stopAfterAttempts (op : TradingOp) : ℕ :=
  if hasRetryDecorator op then 3 else 1

/-- How many times the venue call runs within one client call when every
execution raises. -/
def attemptsOnPersistentFailure (op : TradingOp) : ℕ :=
  (runRetry (fun _ => (.error "transient" : Except String Unit))
    (fun _ => 0) () 1 (stopAfterAttempts op)).attempts

/-! ## The `OKXBaseService` singleton and the `main.py` wiring -/

/-- The attributes of the one `OKXBaseService` object.  The five api
clients are modelled by presence flags (`false` = the attribute is
`None`).  `initialized` is the `_initialized` flag the `__init__` guard
reads and a successful `connect` sets. -/
structure OKXBaseServiceObj where
  initialized : Bool := false
  api_key : Option String := none
  secret_key : Option String := none
  passphrase : Option String := none
  is_sandbox : Bool := false
  account_api : Bool := false
  trade_api : Bool := false
  algo_api : Bool := false
  public_api : Bool := false
  market_api : Bool := false
  deriving DecidableEq, Repr

/-- Class-level state of `OKXBaseService`: the `_instance` slot (holding
the identity of the allocated object, if any), an allocator giving fresh
identities to `object.__new__`, and the attributes of the singleton. -/
structure OKXClassState where
  _instance : Option ℕ := none
  nextId : ℕ := 0
  obj : OKXBaseServiceObj := {}
  deriving DecidableEq, Repr

/-- `__new__`: allocate an object on the first call, store it in
`_instance`, and return the stored instance ever after. -/
def OKXBaseService_new (s : OKXClassState) : OKXClassState × ℕ :=
  match s._instance with
  | some i => (s, i)
  | none => ({ s with _instance := some s.nextId, nextId := s.nextId + 1 }, s.nextId)

/-- `__init__`: return immediately when `self._initialized`, otherwise
reset every attribute to its pre-connection value. -/
def OKXBaseService_init (o : OKXBaseServiceObj) : OKXBaseServiceObj :=
  if o.initialized then o
  else
    { initialized := o.initialized,
      api_key := none, secret_key := none, passphrase := none,
      is_sandbox := false,
      account_api := false, trade_api := false, algo_api := false,
      public_api := false, market_api := false }

/-- A Python construction `OKXBaseService()`: `__new__` followed by
`__init__` on the returned object. -/
def OKXBaseService_construct (s : OKXClassState) : OKXClassState × ℕ :=
  let p := OKXBaseService_new s
  ({ p.1 with obj := OKXBaseService_init p.1.obj }, p.2)

/-- The successful path of `connect`: store the credentials, create the
five api clients, and set `_initialized`. -/
def OKXBaseService_connect_ok (_o : OKXBaseServiceObj)
    (api_key secret_key passphrase : String) (is_sandbox : Bool) :
    OKXBaseServiceObj :=
  { initialized := true,
    api_key := some api_key, secret_key := some secret_key,
    passphrase := some passphrase, is_sandbox := is_sandbox,
    account_api := true, trade_api := true, algo_api := true,
    public_api := true, market_api := true }

/-- `n` consecutive constructions, returning the final class state and
the identities handed out. -/
def constructN (s : OKXClassState) : ℕ → OKXClassState × List ℕ
  | 0 => (s, [])
  | n + 1 =>
      let p := OKXBaseService_construct s
      let q := constructN p.1 n
      (q.1, p.2 :: q.2)

/-- An OKX service wrapper as built by `main.py`: it stores the base
service it was constructed with. -/
structure OKXServiceWrapper where
  base_service : ℕ
  deriving DecidableEq, Repr

/-- The `main.py` wiring: `okx_base_service = OKXBaseService()` followed
by `OKXTradingService(okx_base_service)`,
`OKXMarketService(okx_base_service)`,
`OKXAccountService(okx_base_service)`. -/
def wireOKXServices (s : OKXClassState) :
    OKXClassState × ℕ × OKXServiceWrapper × OKXServiceWrapper × OKXServiceWrapper :=
  let p := OKXBaseService_construct s
  (p.1, p.2, ⟨p.2⟩, ⟨p.2⟩, ⟨p.2⟩)

/-! ## The Discord scheduler (`discord_scheduler.py`) -/

/-- One APScheduler job registration. -/
structure ScheduledJob where
  id : String
  name : String
  intervalMinutes : ℕ
  replace_existing : Bool
  deriving DecidableEq, Repr

/-- The jobs `DiscordScheduler.start_scheduler` registers: the single
`add_job(func=self._fetch_messages_job, trigger=IntervalTrigger(minutes=1),
id="discord_message_fetch", name="Fetch Discord Messages",
replace_existing=True)` call. -/
def start_scheduler_jobs : List ScheduledJob :=
  [{ id := "discord_message_fetch",
     name := "Fetch Discord Messages",
     intervalMinutes := 1,
     replace_existing := true }]

/-! ## Discord data model (`app/models/discord/message.py`)

Datetimes are carried as rational numbers of seconds (the value
`datetime.fromisoformat` yields for the ISO strings Discord sends); the
`strftime("%d/%m/%Y %H:%M")` rendering is abstracted to that value, which
no claim inspects. -/

/-- `ReplyToMessage`. -/
structure ReplyToMessage where
  message_id : String
  author : String
  content : String
  attachments : List String := []
  deriving DecidableEq, Repr

/-- `DiscordMessage`. -/
structure DiscordMessage where
  message_id : String
  content : String
  attachments : List String := []
  reply_to : Option ReplyToMessage := none
  deriving DecidableEq, Repr

/-- `MessageGroup`; `timestamp` carries the parsed datetime of the first
message of the group (the source stores its `strftime` rendering). -/
structure MessageGroup where
  group_id : ℕ
  timestamp : ℚ
  username : String
  messages : List DiscordMessage := []
  deriving DecidableEq, Repr

/-- `DiscordData`; `timespan_from`/`timespan_to` carry the parsed
datetimes the source formats into the `timespan` dict. -/
structure DiscordData where
  username : String
  total_messages : ℕ
  exported_count : ℕ
  timespan_from : ℚ
  timespan_to : ℚ
  message_groups : List MessageGroup := []
  discord_channel_id : String
  target_user_id : String
  deriving DecidableEq, Repr

/-! ## Raw Discord payloads as fetched from the channel -/

/-- An embed of a raw Discord message (only the fields the service
reads). -/
structure RawEmbed where
  description : Option String := none
  title : Option String := none
  deriving DecidableEq, Repr

/-- An attachment of a raw Discord message. -/
structure RawAttachment where
  url : Option String := none
  deriving DecidableEq, Repr

/-- The `referenced_message` object of a raw Discord message. -/
structure RawReferencedMessage where
  id : String
  author_username : String
  content : String := ""
  attachments : List RawAttachment := []
  deriving DecidableEq, Repr

/-- A raw message as returned by the Discord channel endpoint (only the
fields the service reads). -/
structure RawMessage where
  id : String
  timestamp : ℚ
  author_id : String
  author_username : String
  content : String := ""
  embeds : List RawEmbed := []
  attachments : List RawAttachment := []
  has_message_reference : Bool := false
  referenced_message : Option RawReferencedMessage := none
  deriving DecidableEq, Repr

instance : Inhabited RawMessage :=
  ⟨{ id := "", timestamp := 0, author_id := "", author_username := "" }⟩

/-! ## `DiscordMessageService._create_message_group` -/

/-- The embed fallback loop: the first embed with a truthy `description`
wins, else a truthy `title` of that embed, else the next embed; `""` when
no embed offers either. -/
def embedContent : List RawEmbed → String
  | [] => ""
  | emb :: rest =>
      if optTruthy emb.description then emb.description.getD ""
      else if optTruthy emb.title then emb.title.getD ""
      else embedContent rest

/-- `content = msg.get("content", "").strip()`, falling back to the
embeds when empty. -/
def messageContent (msg : RawMessage) : String :=
  let content := msg.content.trim
  if content.isEmpty && !msg.embeds.isEmpty then embedContent msg.embeds
  else content

/-- `[att.get("url") for att in msg["attachments"] if att.get("url")]`. -/
def attachmentUrls (atts : List RawAttachment) : List String :=
  (atts.filter (fun a => optTruthy a.url)).map (fun a => a.url.getD "")

/-- The reply block: present when the message has both a
`message_reference` and a `referenced_message`. -/
def replyTo (msg : RawMessage) : Option ReplyToMessage :=
  if msg.has_message_reference then
    match msg.referenced_message with
    | some rm =>
        some { message_id := rm.id,
               author := rm.author_username,
               content := rm.content.trim,
               attachments := attachmentUrls rm.attachments }
    | none => none
  else none

/-- Conversion of one raw message into a stored `DiscordMessage` (the
per-message body of `_create_message_group`). -/
def discordMessageOfRaw (msg : RawMessage) : DiscordMessage :=
  { message_id := msg.id,
    content := messageContent msg,
    attachments := attachmentUrls msg.attachments,
    reply_to := replyTo msg }

/-- `_create_message_group(group_id, group_messages)`: header fields from
the first message, body the converted messages. -/
def _create_message_group (group_id : ℕ) (group_messages : List RawMessage) :
    MessageGroup :=
  { group_id := group_id,
    timestamp := (group_messages.headD default).timestamp,
    username := (group_messages.headD default).author_username,
    messages := group_messages.map discordMessageOfRaw }

/-! ## `DiscordMessageService._group_messages_by_time` -/

/-- `abs((last_timestamp - current_timestamp).total_seconds() / 60)`. -/
def timeDiffMinutes (last current : RawMessage) : ℚ :=
  |last.timestamp - current.timestamp| / 60

/-- The loop of `_group_messages_by_time`: `message_groups` and
`current_group` are the loop state; the incoming message is compared with
`current_group[-1]` (the `getLastD` default is never reached, the current
group being nonempty throughout). -/
def groupGo (message_groups : List MessageGroup)
    (current_group : List RawMessage) : List RawMessage → List MessageGroup
  | [] =>
      message_groups ++
        [_create_message_group (message_groups.length + 1) current_group]
  | msg :: rest =>
      if timeDiffMinutes (current_group.getLastD msg) msg ≤ 5 then
        groupGo message_groups (current_group ++ [msg]) rest
      else
        groupGo
          (message_groups ++
            [_create_message_group (message_groups.length + 1) current_group])
          [msg] rest

/-- `_group_messages_by_time`: `[]` for an empty input (the final
`if current_group:` guard), else the loop started on the first message. -/
def _group_messages_by_time : List RawMessage → List MessageGroup
  | [] => []
  | msg :: rest => groupGo [] [msg] rest

/-! ## `DiscordMessageService.fetch_discord_messages` -/

/-- `user_messages.sort(key=lambda x: x["timestamp"], reverse=True)`:
stable sort, newest first. -/
def sortNewestFirst (user_messages : List RawMessage) : List RawMessage :=
  user_messages.mergeSort (fun a b => decide (b.timestamp ≤ a.timestamp))

/-- `fetch_discord_messages`, as a function of the resolved credentials,
the HTTP status of the Discord request, and the decoded message list.
The `ValueError` of the credential check and every other exception are
caught by the `except` clause and surface as `None`. -/
def fetch_discord_messages (token channel_id target_user_id : String)
    (status_code : ℕ) (messages : List RawMessage) : Option DiscordData :=
  if token.isEmpty || channel_id.isEmpty || target_user_id.isEmpty then none
  else if status_code ≠ 200 then none
  else
    let user_messages := messages.filter (fun m => m.author_id == target_user_id)
    if user_messages.isEmpty then none
    else
      let sorted := sortNewestFirst user_messages
      let top_10_messages := sorted.take 10
      some
        { username := (sorted.headD default).author_username,
          total_messages := user_messages.length,
          exported_count := top_10_messages.length,
          timespan_from := (top_10_messages.getLastD default).timestamp,
          timespan_to := (top_10_messages.headD default).timestamp,
          message_groups := _group_messages_by_time top_10_messages,
          discord_channel_id := channel_id,
          target_user_id := target_user_id }

/-! ## `DiscordMessageService.save_to_database` -/

/-- One document written to the `trading_signals` collection (the
`created_at` wall-clock field is omitted). -/
structure GroupDoc where
  timestamp : ℚ
  username : String
  messages : List DiscordMessage
  discord_channel_id : String
  target_user_id : String
  deriving DecidableEq, Repr

/-- `save_to_database`, with the store abstracted to the list of message
ids it already contains.  The aggregation pipeline computes
`existing_ids`, the set of already-stored ids among the incoming ones;
each group keeps only its unseen messages and is written only when that
leaves something; the function returns `True` on both the saved and the
all-duplicates paths (`False` only on an exception, which the pure model
has none of).  The result pairs the documents inserted with the returned
boolean. -/
def save_to_database (db_message_ids : List String) (dd : DiscordData) :
    List GroupDoc × Bool :=
  let new_message_ids :=
    (dd.message_groups.map (fun g => g.messages.map DiscordMessage.message_id)).flatten
  let existing_ids := db_message_ids.filter (fun i => new_message_ids.contains i)
  let docs := dd.message_groups.filterMap (fun g =>
    let filtered_messages :=
      g.messages.filter (fun m => !existing_ids.contains m.message_id)
    if filtered_messages.isEmpty then none
    else some
      { timestamp := g.timestamp,
        username := g.username,
        messages := filtered_messages,
        discord_channel_id := dd.discord_channel_id,
        target_user_id := dd.target_user_id })
  (docs, true)

/-! ## Properties of the scheduler and of the retry policy -/

/-- C7: the background scheduler registers exactly one job, the Discord
fetch-and-save job, on a fixed interval of one minute. -/
theorem scheduler_single_one_minute_job :
    start_scheduler_jobs.length = 1
    ∧ ∀ j ∈ start_scheduler_jobs,
        j.id = "discord_message_fetch" ∧ j.intervalMinutes = 1 := by
  decide

/-- C4 counterexample: `close_position` is *not* executed exactly once
per call with no retry — it carries the same
`@retry(stop=stop_after_attempt(3), ...)` decorator as `place_order`,
so under persistent failure the venue call runs three times. -/
theorem close_position_carries_retry :
    ¬ (hasRetryDecorator TradingOp.closePosition = false
       ∧ attemptsOnPersistentFailure TradingOp.closePosition = 1) := by
  decide

/-- C4 (amended): the retry decorator is carried by exactly the
order-placement operations (spot and the five algo placements) together
with `close_position`; every operation without the decorator executes its
venue call exactly once per client call, and every decorated one stops
after three attempts. -/
theorem retry_decorator_coverage :
    ∀ op : TradingOp,
      hasRetryDecorator op = (isOrderPlacement op || op == TradingOp.closePosition)
      ∧ attemptsOnPersistentFailure op = (if hasRetryDecorator op then 3 else 1) := by
  decide

/-- The property bundle of one decorated `place_order` call whose every
attempt raises: three attempts, the two capped-exponential sleeps between
them, and the typed failure of the retry callback (no exception
escapes). -/
def RetryPolicySpec (m lo hi : ℚ)
    (call : ℕ → Except String OKXTradeResponse) : Prop :=
  (place_order_with_retry m lo hi call).attempts = 3
  ∧ (place_order_with_retry m lo hi call).result = handle_retry_error
  ∧ (place_order_with_retry m lo hi call).result.success = false
  ∧ (place_order_with_retry m lo hi call).waits
      = [wait_exponential m lo hi 1, wait_exponential m lo hi 2]
  ∧ wait_exponential m lo hi 1 = max (max 0 lo) (min (m * 1) hi)
  ∧ wait_exponential m lo hi 2 = max (max 0 lo) (min (m * 2) hi)
  ∧ ∀ n : ℕ, wait_exponential m lo hi n ≤ max (max 0 lo) hi

/-- C2: an order placement whose attempts all raise is retried up to the
3 configured attempts with capped exponential backoff between them, then
gives up and returns the callback value — a typed failure response, not a
propagated exception. -/
theorem place_order_retry_gives_up (m lo hi : ℚ)
    (call : ℕ → Except String OKXTradeResponse)
    (hfail : ∀ n, (call n).isOk = false) :
    RetryPolicySpec m lo hi call := by
  have herr : ∀ n, ∃ e, call n = .error e := by
    intro n
    cases h : call n with
    | ok a =>
        have := hfail n
        rw [h] at this
        simp [Except.isOk, Except.toBool] at this
    | error e => exact ⟨e, rfl⟩
  obtain ⟨e1, h1⟩ := herr 1
  obtain ⟨e2, h2⟩ := herr 2
  obtain ⟨e3, h3⟩ := herr 3
  have htrace : place_order_with_retry m lo hi call
      = { result := handle_retry_error, attempts := 3,
          waits := [wait_exponential m lo hi 1, wait_exponential m lo hi 2] } := by
    simp [place_order_with_retry, runRetry, h1, h2, h3]
  refine ⟨by rw [htrace], by rw [htrace], by rw [htrace]; rfl, by rw [htrace], ?_, ?_, ?_⟩
  · simp [wait_exponential]
  · show max (max 0 lo) (min (m * 2 ^ (2 - 1)) hi) = _
    norm_num
  · intro n
    exact max_le_max (le_refl _) (min_le_right _ _)

/-- A call raising a transient failure on every attempt. -/
def alwaysTransientFailure : ℕ → Except String OKXTradeResponse :=
  fun _ => .error "transient"

/-- Witness for `place_order_retry_gives_up` at concrete configuration
values and an always-failing call. -/
theorem place_order_retry_gives_up_witness :
    (∀ n, (alwaysTransientFailure n).isOk = false)
    ∧ RetryPolicySpec 1 0 10 alwaysTransientFailure :=
  ⟨fun _ => rfl,
   place_order_retry_gives_up 1 0 10 alwaysTransientFailure (fun _ => rfl)⟩

/-! ## Properties of the router endpoints -/

/-- A vendor result whose order reached the venue and was rejected
there: the first `data` element carries `sCode ≠ "0"`. -/
def rejectedVendorResult : Option (VendorResult OrderData) :=
  some { msg := none,
         data := some [{ sCode := "51000", sMsg := "Parameter error",
                         ordId := some "" }] }

/-- C1: on a venue-rejected order the `/trading/place-order` endpoint
does *not* answer 400 with the vendor message — the
`HTTPException(400, sMsg)` is raised inside the handler `try` block, so
the catch-all `except Exception` swallows it and re-raises 500 with
`str(e) = "400: <sMsg>"`. -/
theorem place_order_reject_returns_500 :
    runHandler (place_order_endpoint (place_order_classify rejectedVendorResult))
        = EndpointResult.error 500 ("400: " ++ "Parameter error")
    ∧ runHandler (place_order_endpoint (place_order_classify rejectedVendorResult))
        ≠ EndpointResult.error 400 "Parameter error" := by
  constructor
  · rfl
  · decide

/-- C5: the guard for a missing `ord_id`/`cl_ord_id` sits before the
`try` and does answer 400; but when the service finds no order, the
`HTTPException(404, "Order not found")` is raised inside the `try`, so
the client receives 500 with detail `"404: Order not found"` instead of
the 404. -/
theorem get_order_details_status_codes :
    runHandler (@get_order_details_endpoint Unit none none (some ()))
        = EndpointResult.error 400 "Either ord_id or cl_ord_id must be provided"
    ∧ runHandler (@get_order_details_endpoint Unit (some "12345") none none)
        = EndpointResult.error 500 ("404: " ++ "Order not found")
    ∧ runHandler (@get_order_details_endpoint Unit (some "12345") none none)
        ≠ EndpointResult.error 404 "Order not found" := by
  refine ⟨rfl, rfl, by decide⟩

/-! ## Properties of the `OKXBaseService` singleton -/

/-- After any construction, `_instance` holds exactly the identity that
construction returned. -/
theorem construct_sets_instance (s : OKXClassState) :
    (OKXBaseService_construct s).1._instance = some (OKXBaseService_construct s).2 := by
  cases h : s._instance <;>
    simp [OKXBaseService_construct, OKXBaseService_new, h]

/-- Constructing on a class state whose `_instance` is set returns that
stored instance. -/
theorem construct_returns_stored (s : OKXClassState) (i : ℕ)
    (h : s._instance = some i) : (OKXBaseService_construct s).2 = i := by
  simp [OKXBaseService_construct, OKXBaseService_new, h]

/-- Every construction in a sequence returns the identity the first one
returned. -/
theorem constructN_replicate (n : ℕ) :
    ∀ s : OKXClassState,
      (constructN s n).2 = List.replicate n (OKXBaseService_construct s).2 := by
  induction n with
  | zero => intro s; rfl
  | succ n ih =>
      intro s
      have hsame : (OKXBaseService_construct (OKXBaseService_construct s).1).2
          = (OKXBaseService_construct s).2 :=
        construct_returns_stored _ _ (construct_sets_instance s)
      simp [constructN, ih, hsame, List.replicate_succ]

/-- The property bundle of C6: (1) any number of consecutive
`OKXBaseService()` constructions hand out one single identity; (2) the
`__init__` guard makes construction a no-op on the object once
`_initialized` is set — in particular right after a successful
`connect`; (3) the `main.py` wiring hands that one instance to the
trading, market and account wrappers. -/
def SingletonSpec (s : OKXClassState) : Prop :=
  (∀ n : ℕ, (constructN s n).2 = List.replicate n (OKXBaseService_construct s).2)
  ∧ (∀ o : OKXBaseServiceObj,
      OKXBaseService_init { o with initialized := true }
        = { o with initialized := true })
  ∧ (∀ (o : OKXBaseServiceObj) (k sk pp : String) (sb : Bool),
      (OKXBaseService_construct
          { s with obj := OKXBaseService_connect_ok o k sk pp sb }).1.obj
        = OKXBaseService_connect_ok o k sk pp sb)
  ∧ ((wireOKXServices s).2.2.1.base_service = (wireOKXServices s).2.1
     ∧ (wireOKXServices s).2.2.2.1.base_service = (wireOKXServices s).2.1
     ∧ (wireOKXServices s).2.2.2.2.base_service = (wireOKXServices s).2.1)

/-- C6: one shared client instance per vendor — the constructor always
returns the same single instance, re-initialization is skipped once
initialized, and all three OKX service wrappers are built on that one
instance. -/
theorem okx_base_service_singleton (s : OKXClassState) : SingletonSpec s := by
  refine ⟨fun n => constructN_replicate n s, ?_, ?_, ?_⟩
  · intro o; simp [OKXBaseService_init]
  · intro o k sk pp sb
    cases h : s._instance <;>
      simp [OKXBaseService_construct, OKXBaseService_new, h,
        OKXBaseService_init, OKXBaseService_connect_ok]
  · exact ⟨rfl, rfl, rfl⟩

/-! ## The three-outcome classification of vendor responses -/

/-- The three outcomes of `place_order` on a vendor result: request
failed to send (no data element — failure response with `s_code = "1"`
and a message built from the vendor `msg` field), request rejected by the
venue (`sCode ≠ "0"` carried verbatim), request succeeded (`s_code = "0"`
with the venue-assigned order id); `success` holds exactly when the
vendor reported `sCode = "0"`. -/
def PlaceOrderOutcomeSpec (result : Option (VendorResult OrderData)) : Prop :=
  (firstData result = none →
    place_order_classify result
      = { ord_id := "", s_code := "1",
          s_msg := "Order failed: " ++ vendorErrorMsg result })
  ∧ (∀ d, firstData result = some d → d.sCode ≠ "0" →
      place_order_classify result
        = { ord_id := d.ordId.getD "", cl_ord_id := d.clOrdId, tag := d.tag,
            s_code := d.sCode, s_msg := d.sMsg })
  ∧ (∀ d oid, firstData result = some d → d.sCode = "0" → d.ordId = some oid →
      place_order_classify result
        = { ord_id := oid, cl_ord_id := d.clOrdId, tag := d.tag,
            s_code := "0", s_msg := d.sMsg })
  ∧ ((place_order_classify result).success = true
      ↔ ∃ d, firstData result = some d ∧ d.sCode = "0")

/-- The same three outcomes for the shared algo-response handler. -/
def AlgoOutcomeSpec (aresult : Option (VendorResult AlgoOrderData)) : Prop :=
  (firstData aresult = none →
    handle_algo_response aresult
      = .ok { algo_id := "", s_code := "1",
              s_msg := "Algo order failed: " ++ vendorErrorMsg aresult })
  ∧ (∀ d, firstData aresult = some d → d.sCode ≠ "0" →
      handle_algo_response aresult
        = .ok { algo_id := d.algoId.getD "", algo_cl_ord_id := d.algoClOrdId,
                s_code := d.sCode, s_msg := d.sMsg })
  ∧ (∀ d aid, firstData aresult = some d → d.sCode = "0" → d.algoId = some aid →
      handle_algo_response aresult
        = .ok { algo_id := aid, algo_cl_ord_id := d.algoClOrdId,
                s_code := "0", s_msg := d.sMsg })
  ∧ (∀ resp, handle_algo_response aresult = .ok resp →
      (resp.success = true ↔ ∃ d, firstData aresult = some d ∧ d.sCode = "0"))

/-- C3: `place_order` and the shared algo handler classify every vendor
response into exactly the three documented outcomes, and the `success`
property of the returned response holds exactly when the vendor reported
`sCode = "0"`.  The hypotheses say the vendor supplies the order id on a
successful placement (otherwise the `order_data["ordId"]` access would
take the `KeyError` route). -/
theorem classify_three_outcomes (result : Option (VendorResult OrderData))
    (aresult : Option (VendorResult AlgoOrderData))
    (h1 : (firstData result).all (fun d => !(d.sCode == "0") || d.ordId.isSome) = true)
    (h2 : (firstData aresult).all (fun d => !(d.sCode == "0") || d.algoId.isSome) = true) :
    PlaceOrderOutcomeSpec result ∧ AlgoOutcomeSpec aresult := by
  constructor
  · rcases result with _ | ⟨msg, _ | (_ | ⟨d, rest⟩)⟩
    · exact ⟨fun _ => rfl, by simp [firstData], by simp [firstData],
        by simp [place_order_classify, OKXTradeResponse.success, firstData]⟩
    · exact ⟨fun _ => rfl, by simp [firstData], by simp [firstData],
        by simp [place_order_classify, OKXTradeResponse.success, firstData]⟩
    · exact ⟨fun _ => rfl, by simp [firstData], by simp [firstData],
        by simp [place_order_classify, OKXTradeResponse.success, firstData]⟩
    · have hfd : firstData (some { msg := msg, data := some (d :: rest) }) = some d := rfl
      by_cases hc : d.sCode = "0"
      · obtain ⟨oid, hoid⟩ : ∃ oid, d.ordId = some oid := by
          rw [hfd] at h1
          simp [hc] at h1
          exact Option.isSome_iff_exists.mp h1
        refine ⟨by simp [hfd], ?_, ?_, ?_⟩
        · intro d' hd' hne
          rw [hfd] at hd'
          cases hd'
          exact absurd hc hne
        · intro d' oid' hd' _ hoid'
          rw [hfd] at hd'
          cases hd'
          rw [hoid] at hoid'
          cases hoid'
          simp [place_order_classify, hc, hoid]
        · constructor
          · intro _
            exact ⟨d, hfd, hc⟩
          · intro _
            simp [place_order_classify, hc, hoid, OKXTradeResponse.success]
      · refine ⟨by simp [hfd], ?_, ?_, ?_⟩
        · intro d' hd' _
          rw [hfd] at hd'
          cases hd'
          simp [place_order_classify, hc]
        · intro d' oid' hd' hc' _
          rw [hfd] at hd'
          cases hd'
          exact absurd hc' hc
        · rw [hfd]
          simp only [place_order_classify, if_pos hc, OKXTradeResponse.success]
          constructor
          · intro hb
            exact absurd (eq_of_beq hb) hc
          · rintro ⟨d', hd', hc'⟩
            cases hd'
            exact absurd hc' hc
  · rcases aresult with _ | ⟨msg, _ | (_ | ⟨d, rest⟩)⟩
    · refine ⟨fun _ => rfl, by simp [firstData], by simp [firstData], ?_⟩
      intro resp hresp
      cases hresp
      simp [OKXAlgoOrderResponse.success, firstData]
    · refine ⟨fun _ => rfl, by simp [firstData], by simp [firstData], ?_⟩
      intro resp hresp
      cases hresp
      simp [OKXAlgoOrderResponse.success, firstData]
    · refine ⟨fun _ => rfl, by simp [firstData], by simp [firstData], ?_⟩
      intro resp hresp
      cases hresp
      simp [OKXAlgoOrderResponse.success, firstData]
    · have hfd : firstData (some { msg := msg, data := some (d :: rest) }) = some d := rfl
      by_cases hc : d.sCode = "0"
      · obtain ⟨aid, haid⟩ : ∃ aid, d.algoId = some aid := by
          rw [hfd] at h2
          simp [hc] at h2
          exact Option.isSome_iff_exists.mp h2
        refine ⟨by simp [hfd], ?_, ?_, ?_⟩
        · intro d' hd' hne
          rw [hfd] at hd'
          cases hd'
          exact absurd hc hne
        · intro d' aid' hd' _ haid'
          rw [hfd] at hd'
          cases hd'
          rw [haid] at haid'
          cases haid'
          simp [handle_algo_response, hc, haid]
        · intro resp hresp
          simp only [handle_algo_response, hc, haid] at hresp
          simp at hresp
          cases hresp
          constructor
          · intro _
            exact ⟨d, hfd, hc⟩
          · intro _
            simp [OKXAlgoOrderResponse.success, hc]
      · refine ⟨by simp [hfd], ?_, ?_, ?_⟩
        · intro d' hd' _
          rw [hfd] at hd'
          cases hd'
          simp [handle_algo_response, hc]
        · intro d' aid' hd' hc' _
          rw [hfd] at hd'
          cases hd'
          exact absurd hc' hc
        · intro resp hresp
          simp only [handle_algo_response, if_pos hc] at hresp
          cases hresp
          rw [hfd]
          simp only [OKXAlgoOrderResponse.success]
          constructor
          · intro hb
            exact absurd (eq_of_beq hb) hc
          · rintro ⟨d', hd', hc'⟩
            cases hd'
            exact absurd hc' hc

/-- A successful spot placement and a successful algo placement used to
witness `classify_three_outcomes`. -/
def acceptedVendorResult : Option (VendorResult OrderData) :=
  some { msg := none,
         data := some [{ sCode := "0", sMsg := "", ordId := some "5501" }] }

/-- The algo counterpart of `acceptedVendorResult`. -/
def acceptedAlgoVendorResult : Option (VendorResult AlgoOrderData) :=
  some { msg := none,
         data := some [{ sCode := "0", sMsg := "", algoId := some "7701" }] }

/-- Witness for `classify_three_outcomes` at concrete vendor results. -/
theorem classify_three_outcomes_witness :
    ((firstData acceptedVendorResult).all
        (fun d => !(d.sCode == "0") || d.ordId.isSome) = true)
    ∧ ((firstData acceptedAlgoVendorResult).all
        (fun d => !(d.sCode == "0") || d.algoId.isSome) = true)
    ∧ (PlaceOrderOutcomeSpec acceptedVendorResult
        ∧ AlgoOutcomeSpec acceptedAlgoVendorResult) :=
  ⟨by decide, by decide,
   classify_three_outcomes acceptedVendorResult acceptedAlgoVendorResult
     (by decide) (by decide)⟩

/-! ## Properties of `_group_messages_by_time`

To state the time conditions (which concern the raw timestamps, not the
converted `DiscordMessage` payloads) the grouping loop is mirrored by
`rawGroupsGo`, which returns the underlying partition of the raw input;
`tagGroups` then performs the positional `_create_message_group` calls.
`groupGo_eq_tagGroups` proves the transcription `groupGo` equal to that
decomposition. -/

/-- Two raw messages lie within the 5-minute window. -/
def near (a b : RawMessage) : Prop :=
  timeDiffMinutes a b ≤ 5

/-- Separation of two consecutive raw groups: the last message of the
first and the head of the second are more than 5 minutes apart. -/
def GroupSep (g h : List RawMessage) : Prop :=
  ∀ a ∈ g.getLast?, ∀ b ∈ h.head?, ¬ near a b

/-- The grouping loop, keeping the raw message partition. -/
def rawGroupsGo (current_group : List RawMessage) :
    List RawMessage → List (List RawMessage)
  | [] => [current_group]
  | msg :: rest =>
      if timeDiffMinutes (current_group.getLastD msg) msg ≤ 5 then
        rawGroupsGo (current_group ++ [msg]) rest
      else
        current_group :: rawGroupsGo [msg] rest

/-- The raw partition produced by the grouping loop. -/
def rawGroupsByTime : List RawMessage → List (List RawMessage)
  | [] => []
  | msg :: rest => rawGroupsGo [msg] rest

/-- Positional `_create_message_group` application: ids `k`, `k+1`, …. -/
def tagGroups (k : ℕ) : List (List RawMessage) → List MessageGroup
  | [] => []
  | g :: gs => _create_message_group k g :: tagGroups (k + 1) gs

/-- The source loop equals the raw partition tagged positionally. -/
theorem groupGo_eq_tagGroups (rest : List RawMessage) :
    ∀ (gs : List MessageGroup) (cur : List RawMessage),
      groupGo gs cur rest = gs ++ tagGroups (gs.length + 1) (rawGroupsGo cur rest) := by
  induction rest with
  | nil =>
      intro gs cur
      simp [groupGo, rawGroupsGo, tagGroups]
  | cons msg rest ih =>
      intro gs cur
      by_cases hnear : timeDiffMinutes (cur.getLastD msg) msg ≤ 5
      · rw [groupGo, rawGroupsGo, if_pos hnear, if_pos hnear, ih]
      · rw [groupGo, rawGroupsGo, if_neg hnear, if_neg hnear, ih, tagGroups]
        simp [List.length_append]

/-- The raw partition concatenates back to the input of the loop. -/
theorem rawGroupsGo_flatten (rest : List RawMessage) :
    ∀ cur : List RawMessage, (rawGroupsGo cur rest).flatten = cur ++ rest := by
  induction rest with
  | nil => intro cur; simp [rawGroupsGo]
  | cons msg rest ih =>
      intro cur
      rw [rawGroupsGo]
      by_cases hnear : timeDiffMinutes (cur.getLastD msg) msg ≤ 5
      · rw [if_pos hnear, ih]
        simp
      · rw [if_neg hnear]
        simp [ih]

/-- Invariants of the grouping loop: starting from a nonempty chained
current group, every produced group is nonempty and 5-minute chained,
consecutive groups are separated by more than 5 minutes, and the head of
the first produced group is the head of the current group. -/
theorem rawGroupsGo_invariants (rest : List RawMessage) :
    ∀ cur : List RawMessage, cur ≠ [] → List.Chain' near cur →
      (∀ g ∈ rawGroupsGo cur rest, g ≠ [] ∧ List.Chain' near g)
      ∧ List.Chain' GroupSep (rawGroupsGo cur rest)
      ∧ (rawGroupsGo cur rest).head?.bind List.head? = cur.head? := by
  induction rest with
  | nil =>
      intro cur hne hch
      refine ⟨?_, ?_, ?_⟩
      · intro g hg
        rw [rawGroupsGo] at hg
        simp at hg
        subst hg
        exact ⟨hne, hch⟩
      · rw [rawGroupsGo]
        simp [List.chain'_singleton]
      · rw [rawGroupsGo]
        rfl
  | cons msg rest ih =>
      intro cur hne hch
      rw [rawGroupsGo]
      by_cases hnear : timeDiffMinutes (cur.getLastD msg) msg ≤ 5
      · rw [if_pos hnear]
        have hlast : ∀ a ∈ cur.getLast?, near a msg := by
          intro a ha
          have : cur.getLast? = some (cur.getLastD msg) := by
            rw [List.getLastD_eq_getLast?]
            cases h : cur.getLast? with
            | none => exact absurd (List.getLast?_eq_none_iff.mp h) hne
            | some x => rfl
          rw [this] at ha
          cases ha
          exact hnear
        have hch2 : List.Chain' near (cur ++ [msg]) := by
          rw [List.chain'_append]
          refine ⟨hch, List.chain'_singleton msg, ?_⟩
          intro x hx y hy
          simp at hy
          subst hy
          exact hlast x hx
        have := ih (cur ++ [msg]) (by simp) hch2
        refine ⟨this.1, this.2.1, ?_⟩
        rw [this.2.2]
        cases cur with
        | nil => exact absurd rfl hne
        | cons c cs => simp
      · rw [if_neg hnear]
        have hout := ih [msg] (by simp) (List.chain'_singleton msg)
        refine ⟨?_, ?_, ?_⟩
        · intro g hg
          simp at hg
          rcases hg with hg | hg
          · subst hg; exact ⟨hne, hch⟩
          · exact hout.1 g hg
        · obtain ⟨g, gs, hgs⟩ : ∃ g gs, rawGroupsGo [msg] rest = g :: gs := by
            cases h : rawGroupsGo [msg] rest with
            | nil =>
                have := rawGroupsGo_flatten rest [msg]
                rw [h] at this
                simp at this
            | cons g gs => exact ⟨g, gs, rfl⟩
          rw [hgs]
          rw [hgs] at hout
          refine List.chain'_cons.mpr ⟨?_, hout.2.1⟩
          intro a ha b hb
          have hhead : g.head? = some msg := by
            have := hout.2.2
            simp at this
            exact this
          rw [hhead] at hb
          cases hb
          have : cur.getLast? = some (cur.getLastD msg) := by
            rw [List.getLastD_eq_getLast?]
            cases h : cur.getLast? with
            | none => exact absurd (List.getLast?_eq_none_iff.mp h) hne
            | some x => rfl
          rw [this] at ha
          cases ha
          exact hnear
        · cases cur with
          | nil => exact absurd rfl hne
          | cons c cs => simp

/-- The group ids assigned by the positional tagging are `k`, `k+1`, …. -/
theorem tagGroups_map_group_id (gs : List (List RawMessage)) :
    ∀ k : ℕ, (tagGroups k gs).map MessageGroup.group_id = List.range' k gs.length := by
  induction gs with
  | nil => intro k; rfl
  | cons g gs ih =>
      intro k
      simp [tagGroups, _create_message_group, List.range'_succ, ih]

/-- The message bodies of the tagged groups concatenate to the converted
input. -/
theorem tagGroups_map_messages (gs : List (List RawMessage)) :
    ∀ k : ℕ, ((tagGroups k gs).map MessageGroup.messages).flatten
      = gs.flatten.map discordMessageOfRaw := by
  induction gs with
  | nil => intro k; rfl
  | cons g gs ih =>
      intro k
      simp [tagGroups, _create_message_group, ih]

/-- Shared corollary: the converted messages of the produced groups,
concatenated in order, are exactly the converted input. -/
theorem group_messages_flatten (msgs : List RawMessage) :
    ((_group_messages_by_time msgs).map MessageGroup.messages).flatten
      = msgs.map discordMessageOfRaw := by
  cases msgs with
  | nil => rfl
  | cons m rest =>
      rw [_group_messages_by_time, groupGo_eq_tagGroups]
      simp only [List.nil_append, List.length_nil, Nat.zero_add]
      rw [tagGroups_map_messages, rawGroupsGo_flatten]
      rfl

/-- The property bundle of C8: `rawGroupsByTime msgs` names the raw
partition underlying the produced groups.  The loop partitions the input
in order; every group is nonempty and internally 5-minute chained;
consecutive groups are separated by more than 5 minutes; the group ids
are `1, 2, …`; and the groups carry the converted input messages in
order. -/
def GroupSpec (msgs : List RawMessage) : Prop :=
  (rawGroupsByTime msgs).flatten = msgs
  ∧ _group_messages_by_time msgs = tagGroups 1 (rawGroupsByTime msgs)
  ∧ (∀ g ∈ rawGroupsByTime msgs, g ≠ [] ∧ List.Chain' near g)
  ∧ List.Chain' GroupSep (rawGroupsByTime msgs)
  ∧ (_group_messages_by_time msgs).map MessageGroup.group_id
      = List.range' 1 (rawGroupsByTime msgs).length
  ∧ ((_group_messages_by_time msgs).map MessageGroup.messages).flatten
      = msgs.map discordMessageOfRaw

/-- C8: `_group_messages_by_time` partitions its input in order into
nonempty groups chained within 5 minutes, separated by more than 5
minutes, with consecutive group ids starting at 1. -/
theorem group_messages_by_time_partitions (msgs : List RawMessage) :
    GroupSpec msgs := by
  cases msgs with
  | nil =>
      exact ⟨rfl, rfl, by simp [rawGroupsByTime], by simp [rawGroupsByTime],
        rfl, rfl⟩
  | cons m rest =>
      have hinv := rawGroupsGo_invariants rest [m] (by simp)
        (List.chain'_singleton m)
      refine ⟨?_, ?_, hinv.1, hinv.2.1, ?_, group_messages_flatten (m :: rest)⟩
      · rw [rawGroupsByTime, rawGroupsGo_flatten]
        rfl
      · rw [_group_messages_by_time, groupGo_eq_tagGroups]
        rfl
      · rw [_group_messages_by_time, groupGo_eq_tagGroups, rawGroupsByTime]
        simp only [List.nil_append, List.length_nil, Nat.zero_add]
        exact tagGroups_map_group_id _ 1

/-! ## Properties of `fetch_discord_messages` -/

/-- The messages of the fetched channel authored by the target user. -/
def userMessagesOf (target_user_id : String) (messages : List RawMessage) :
    List RawMessage :=
  messages.filter (fun m => m.author_id == target_user_id)

/-- The messages the fetch exports: the newest 10 of the target user
messages, newest first. -/
def exportedOf (target_user_id : String) (messages : List RawMessage) :
    List RawMessage :=
  (sortNewestFirst (userMessagesOf target_user_id messages)).take 10

/-- The sort of `fetch_discord_messages` permutes its input. -/
theorem sortNewestFirst_perm (l : List RawMessage) :
    (sortNewestFirst l).Perm l :=
  List.mergeSort_perm l _

/-- The sort of `fetch_discord_messages` is newest-first. -/
theorem sortNewestFirst_pairwise (l : List RawMessage) :
    (sortNewestFirst l).Pairwise (fun a b => b.timestamp ≤ a.timestamp) := by
  have h := @List.sorted_mergeSort RawMessage
    (fun a b => decide (b.timestamp ≤ a.timestamp))
    (fun a b c hab hbc => by
      simp only [decide_eq_true_eq] at hab hbc ⊢
      exact le_trans hbc hab)
    (fun a b => by
      simp only [Bool.or_eq_true, decide_eq_true_eq]
      exact le_total b.timestamp a.timestamp)
    l
  exact h.imp (fun hab => of_decide_eq_true hab)

/-- The property bundle of C9: a failed request or a channel without
target-user messages yields `None`; a returned payload counts exactly the
target-user messages, exports `min 10` of them — the newest ones, newest
first — and carries them (converted) in its groups. -/
def FetchSpec (token channel_id target_user_id : String) (status_code : ℕ)
    (messages : List RawMessage) : Prop :=
  (status_code ≠ 200 →
    fetch_discord_messages token channel_id target_user_id status_code messages
      = none)
  ∧ (userMessagesOf target_user_id messages = [] →
    fetch_discord_messages token channel_id target_user_id status_code messages
      = none)
  ∧ ∀ dd,
      fetch_discord_messages token channel_id target_user_id status_code messages
        = some dd →
      dd.total_messages = (userMessagesOf target_user_id messages).length
      ∧ dd.exported_count = min 10 (userMessagesOf target_user_id messages).length
      ∧ (dd.message_groups.map MessageGroup.messages).flatten
          = (exportedOf target_user_id messages).map discordMessageOfRaw
      ∧ (∀ m ∈ exportedOf target_user_id messages, m.author_id = target_user_id)
      ∧ (exportedOf target_user_id messages).Pairwise
          (fun a b => b.timestamp ≤ a.timestamp)
      ∧ (∀ a ∈ exportedOf target_user_id messages,
          ∀ b ∈ (sortNewestFirst (userMessagesOf target_user_id messages)).drop 10,
            b.timestamp ≤ a.timestamp)
      ∧ (exportedOf target_user_id messages
          ++ (sortNewestFirst (userMessagesOf target_user_id messages)).drop 10).Perm
            (userMessagesOf target_user_id messages)

/-- C9: whenever `fetch_discord_messages` returns data, only target-user
messages are counted and exported, `exported_count = min 10
total_messages`, the exported messages are the newest ones newest-first,
and a failed request or an empty target-user filter yields `None`. -/
theorem fetch_discord_messages_spec (token channel_id target_user_id : String)
    (status_code : ℕ) (messages : List RawMessage) :
    FetchSpec token channel_id target_user_id status_code messages := by
  by_cases hc : token.isEmpty || channel_id.isEmpty || target_user_id.isEmpty
  · refine ⟨?_, ?_, ?_⟩
    · intro _; simp [fetch_discord_messages, hc]
    · intro _; simp [fetch_discord_messages, hc]
    · intro dd h
      simp [fetch_discord_messages, hc] at h
  · by_cases hs : status_code = 200
    · refine ⟨fun h => absurd hs h, ?_, ?_⟩
      · intro h
        unfold userMessagesOf at h
        simp [fetch_discord_messages, hc, hs, h]
      · intro dd h
        by_cases hu : (messages.filter (fun m => m.author_id == target_user_id)).isEmpty
        · simp [fetch_discord_messages, hc, hs, hu] at h
        · simp only [fetch_discord_messages, hc, hs, hu, ne_eq, not_true_eq_false,
            if_false, Bool.false_eq_true, if_neg, Option.some.injEq] at h
          have hperm := sortNewestFirst_perm
            (messages.filter (fun m => m.author_id == target_user_id))
          have hpw := sortNewestFirst_pairwise
            (messages.filter (fun m => m.author_id == target_user_id))
          subst h
          refine ⟨rfl, ?_, ?_, ?_, ?_, ?_, ?_⟩
          · show (List.take 10 _).length = _
            rw [List.length_take, hperm.length_eq]
            simp [userMessagesOf]
          · show ((_group_messages_by_time _).map MessageGroup.messages).flatten = _
            rw [group_messages_flatten]
            rfl
          · intro m hm
            have hm2 : m ∈ sortNewestFirst
                (messages.filter (fun m => m.author_id == target_user_id)) :=
              List.mem_of_mem_take hm
            have hm3 := hperm.mem_iff.mp hm2
            exact eq_of_beq (List.mem_filter.mp hm3).2
          · exact hpw.sublist (List.take_sublist _ _)
          · intro a ha b hb
            have hpw2 := hpw
            rw [← List.take_append_drop 10 (sortNewestFirst
              (messages.filter (fun m => m.author_id == target_user_id)))] at hpw2
            exact (List.pairwise_append.mp hpw2).2.2 a ha b hb
          · show (List.take 10 _ ++ List.drop 10 _).Perm _
            rw [List.take_append_drop]
            exact hperm
    · refine ⟨?_, ?_, ?_⟩
      · intro _; simp [fetch_discord_messages, hc, hs]
      · intro _; simp [fetch_discord_messages, hc, hs]
      · intro dd h
        simp [fetch_discord_messages, hc, hs] at h

/-! ## Properties of `save_to_database` -/

/-- The property bundle of C10: the function reports `True`
unconditionally (in particular both when it wrote and when every message
already existed, so `True` does not imply a write happened); every
document written contains only messages absent from the store and at
least one of them; and when every incoming message already exists nothing
is written. -/
def SaveSpec (db_message_ids : List String) (dd : DiscordData) : Prop :=
  (save_to_database db_message_ids dd).2 = true
  ∧ (∀ doc ∈ (save_to_database db_message_ids dd).1,
      doc.messages ≠ [] ∧ ∀ m ∈ doc.messages, m.message_id ∉ db_message_ids)
  ∧ ((∀ g ∈ dd.message_groups, ∀ m ∈ g.messages, m.message_id ∈ db_message_ids) →
      (save_to_database db_message_ids dd).1 = [])

/-- C10: `save_to_database` never inserts a message whose id already
exists in the store, writes no group without new messages, and returns
`True` whether or not anything was written. -/
theorem save_to_database_no_duplicates (db_message_ids : List String)
    (dd : DiscordData) : SaveSpec db_message_ids dd := by
  have hnew : ∀ g ∈ dd.message_groups, ∀ m ∈ g.messages,
      m.message_id ∈ (dd.message_groups.map
        (fun g => g.messages.map DiscordMessage.message_id)).flatten := by
    intro g hg m hm
    rw [List.mem_flatten]
    exact ⟨g.messages.map DiscordMessage.message_id,
      List.mem_map_of_mem _ hg, List.mem_map_of_mem _ hm⟩
  refine ⟨rfl, ?_, ?_⟩
  · intro doc hdoc
    simp only [save_to_database] at hdoc
    rw [List.mem_filterMap] at hdoc
    obtain ⟨g, hg, hfg⟩ := hdoc
    by_cases hemp : (g.messages.filter (fun m =>
        !(db_message_ids.filter (fun i => ((dd.message_groups.map
          (fun g => g.messages.map DiscordMessage.message_id)).flatten).contains i)).contains
            m.message_id)).isEmpty
    · rw [if_pos hemp] at hfg
      cases hfg
    · rw [if_neg hemp] at hfg
      cases hfg
      constructor
      · intro hnil
        apply hemp
        rw [List.isEmpty_iff]
        exact hnil
      · intro m hm hmem
        have hparts := List.mem_filter.mp hm
        have hin : m.message_id ∈ db_message_ids.filter (fun i =>
            ((dd.message_groups.map
              (fun g => g.messages.map DiscordMessage.message_id)).flatten).contains i) := by
          rw [List.mem_filter]
          refine ⟨hmem, ?_⟩
          simp only [List.contains_iff_exists_mem_beq]
          exact ⟨m.message_id, hnew g hg m hparts.1, by simp⟩
        have := hparts.2
        simp only [Bool.not_eq_true'] at this
        have hc2 : (db_message_ids.filter (fun i =>
            ((dd.message_groups.map
              (fun g => g.messages.map DiscordMessage.message_id)).flatten).contains i)).contains
                m.message_id = true := by simpa using hin
        rw [this] at hc2
        cases hc2
  · intro hall
    simp only [save_to_database]
    rw [List.filterMap_eq_nil_iff]
    intro g hg
    have hfe : g.messages.filter (fun m =>
        !(db_message_ids.filter (fun i => ((dd.message_groups.map
          (fun g => g.messages.map DiscordMessage.message_id)).flatten).contains i)).contains
            m.message_id) = [] := by
      rw [List.filter_eq_nil_iff]
      intro m hm
      simp only [Bool.not_eq_true', Bool.not_eq_false]
      rw [List.contains_iff_exists_mem_beq]
      refine ⟨m.message_id, ?_, by simp⟩
      rw [List.mem_filter]
      refine ⟨hall g hg m hm, ?_⟩
      rw [List.contains_iff_exists_mem_beq]
      exact ⟨m.message_id, hnew g hg m hm, by simp⟩
    rw [hfe]
    rfl

end CrossPlatformTrader
